import Mathlib

/-!
Verification development for the wasm-parse repository: a shallow embedding
of the byte-stream decoder (LEB128 integer codec, instruction decoder,
section/module framing) together with theorems settling the spec claims.

Byte buffers are modelled as List Nat (each element a byte value, consumed
from the front, mirroring Vec::drain(..k) on the Rust side). Machine
integers are modelled as Nat and Int with explicit wrapping where the
source wraps.
-/

set_option maxHeartbeats 1000000

/-- The error type of the crate (src/lib.rs lines 13-22). The Backtrace
payload carries no decode-relevant data and is dropped. -/
inductive PError where
  | invalidNumType : Nat → PError
  | invalidVecType : Nat → PError
  | invalidRefType : Nat → PError
  | invalidValType : Nat → PError
  | invalidLimits : Nat → PError
  | invalidFuncType : Nat → PError
  | invalidGlobalType : Nat → PError
  | endOfBuffer : PError
deriving DecidableEq, Repr

/-- Outcome of a decode step. ok carries the value and the remaining buffer;
err carries the typed Error together with the buffer state at the failure
point (the Rust buffer is mutated in place, so a caller that catches the
error, as BlockType::parse does, observes the partially drained buffer);
panicked models a Rust process abort (panic!, unimplemented!, an unwrap of
None, or Vec::drain past the end of the buffer); outOfFuel is an artifact
of the fuel-based embedding of the recursive descent and corresponds to no
behaviour of the source. -/
inductive PResult (α : Type) where
  | ok : α → List Nat → PResult α
  | err : PError → List Nat → PResult α
  | panicked : PResult α
  | outOfFuel : PResult α
deriving DecidableEq, Repr

/-- Sequencing of decode steps: Rust ? propagation plus the threaded buffer. -/
def PResult.bind (x : PResult α) (f : α → List Nat → PResult β) : PResult β :=
  match x with
  | .ok a r => f a r
  | .err e r => .err e r
  | .panicked => .panicked
  | .outOfFuel => .outOfFuel

/-- Two-complement wrap of an Int into the i64 value range. -/
def wrapI64 (x : Int) : Int := (x + 2 ^ 63) % 2 ^ 64 - 2 ^ 63

/-- Two-complement wrap of an Int into the i32 value range (the `as i32`
cast of src/lib.rs line 50). -/
def wrapI32 (x : Int) : Int := (x + 2 ^ 31) % 2 ^ 32 - 2 ^ 31

/-- The i64 value of `1 << k` for a shift amount k < 64: the product wraps
two-complement (at k = 63 the result is the i64 minimum). -/
def shlOneI64 (k : Nat) : Int := wrapI64 ((2 : Int) ^ k)

/-- Buffer::read_uleb128 (src/lib.rs lines 176-187). Returns the decoded
value and the remaining buffer; the function cannot fail: the final match
arm yields the default value 0 without consuming. The Rust guard
`(*byte as u64) < (1 << n as u64)` is modelled as `b < 2 ^ n`; the two
differ only at n = 64 (a u64 shift-amount overflow), and no call chain in
this crate reaches read_uleb128 with n = 64 and a first byte below 128
except through the unused u64 impl of Parse. -/
def read_uleb128 (n : Nat) (buf : List Nat) : Nat × List Nat :=
  match buf with
  | [] => (0, [])
  | b :: rest =>
    if b < 128 ∧ b < 2 ^ n then (b, rest)
    else if 128 ≤ b ∧ 7 < n then
      let (v, rest') := read_uleb128 (n - 7) rest
      (128 * v + (b - 128), rest')
    else (0, b :: rest)

/-- Loop body of Buffer::write_uleb128 (src/lib.rs lines 189-202):
standard unsigned LEB128 emission, 7 value bits per byte, continuation bit
0x80. The fuel argument is an embedding artifact making the recursion
structural; the wrapper below always supplies enough. -/
def write_uleb128_go : Nat → Nat → List Nat
  | 0, _ => []
  | fuel + 1, value =>
    if value / 128 = 0 then [value % 128]
    else (value % 128 + 128) :: write_uleb128_go fuel (value / 128)

/-- Buffer::write_uleb128: one loop iteration per base-128 digit, so
value + 1 iterations always suffice. -/
def write_uleb128 (value : Nat) : List Nat := write_uleb128_go (value + 1) value

/-- Buffer::read_sleb128 (src/lib.rs lines 204-221). The byte is drained
before the match, so every arm (the default-0 arm included) consumes it;
draining an empty buffer is a Rust panic, modelled as none. The second
guard compares against `128 - (2 ^ (n - 1))` where the Rust `^` is XOR,
not exponentiation; this is modelled faithfully with Nat.xor. The third
arm accumulates in i64 arithmetic, which wraps. -/
def read_sleb128 (n : Nat) (buf : List Nat) : Option (Int × List Nat) :=
  match buf with
  | [] => none
  | b :: rest =>
    if b < 64 ∧ (b : Int) < shlOneI64 (n - 1) then some ((b : Int), rest)
    else if 64 ≤ b ∧ b < 128 ∧ (128 : Int) - (Nat.xor 2 (n - 1) : Int) ≤ (b : Int) then
      some ((b : Int) - 128, rest)
    else if 128 ≤ b ∧ 7 < n then
      match read_sleb128 (n - 7) rest with
      | none => none
      | some (v, rest') => some (wrapI64 (128 * v + ((b : Int) - 128)), rest')
    else some (0, rest)

/-- Buffer::write_sleb128 (src/lib.rs lines 223-240): the loop takes the
low 8 bits of the value, arithmetic-shifts the value right by 6 to test
the termination condition (remaining bits all 0 or all 1), and on
continuation shifts one further bit (7 total) and sets the continuation
bit. Arithmetic right shift of i64 by a positive power of two is floor
division, hence Int.ediv. -/
def write_sleb128_go : Nat → Int → List Nat
  | 0, _ => []
  | fuel + 1, value =>
    if Int.ediv value 64 = 0 ∨ Int.ediv value 64 = -1 then
      [(Int.emod value 128).toNat]
    else
      ((Int.emod value 128).toNat + 128) :: write_sleb128_go fuel (Int.ediv value 128)

/-- Buffer::write_sleb128: each iteration divides the magnitude by 128, so
natAbs + 1 iterations always suffice. -/
def write_sleb128 (value : Int) : List Nat := write_sleb128_go (value.natAbs + 1) value

/-! ## Type decoders (src/types.rs) -/

/-- src/types.rs lines 5-11. -/
inductive NumType where
  | I32 | I64 | F32 | F64
deriving DecidableEq, Repr

/-- src/types.rs lines 13-16. -/
inductive VecType where
  | V128
deriving DecidableEq, Repr

/-- src/types.rs lines 18-22. -/
inductive RefType where
  | FuncRef | ExternRef
deriving DecidableEq, Repr

/-- src/types.rs lines 24-29. -/
inductive ValType where
  | NumType : NumType → ValType
  | VecType : VecType → ValType
  | RefType : RefType → ValType
deriving DecidableEq, Repr

/-- ResultType = Vec of ValType (src/types.rs line 31). -/
def ResultType := List ValType
deriving instance DecidableEq, Repr for ResultType

/-- src/types.rs line 34: FuncType(ResultType, ResultType). -/
structure FuncType where
  params : ResultType
  results : ResultType
deriving DecidableEq, Repr

/-- src/types.rs line 37: Limits(u32, Option of u32). -/
structure Limits where
  lmin : Nat
  lmax : Option Nat
deriving DecidableEq, Repr

/-- MemType = Limits (src/types.rs line 39). -/
def MemType := Limits
deriving instance DecidableEq, Repr for MemType

/-- src/types.rs line 42: TableType(RefType, Limits). -/
structure TableType where
  reftype : RefType
  limits : Limits
deriving DecidableEq, Repr

/-- src/types.rs line 45: GlobalType(bool, ValType); the bool is the
mutability flag, decoded as byte > 0. -/
structure GlobalType where
  mutable : Bool
  valtype : ValType
deriving DecidableEq, Repr

/-- NumType::parse from one byte (src/types.rs lines 47-57). -/
def NumType.parseByte (value : Nat) : Except PError NumType :=
  if value = 0x7F then .ok .I32
  else if value = 0x7E then .ok .I64
  else if value = 0x7D then .ok .F32
  else if value = 0x7C then .ok .F64
  else .error (.invalidNumType value)

/-- VecType::parse from one byte (src/types.rs lines 59-67). -/
def VecType.parseByte (value : Nat) : Except PError VecType :=
  if value = 0x7B then .ok .V128 else .error (.invalidVecType value)

/-- RefType::parse from one byte (src/types.rs lines 69-77). -/
def RefType.parseByte (value : Nat) : Except PError RefType :=
  if value = 0x70 then .ok .FuncRef
  else if value = 0x6F then .ok .ExternRef
  else .error (.invalidRefType value)

/-- ValType::parse from one byte (src/types.rs lines 79-89). -/
def ValType.parseByte (value : Nat) : Except PError ValType :=
  if 0x6F ≤ value ∧ value ≤ 0x70 then
    match RefType.parseByte value with
    | .ok r => .ok (.RefType r)
    | .error e => .error e
  else if value = 0x7B then .ok (.VecType .V128)
  else if 0x7C ≤ value ∧ value ≤ 0x7F then
    match NumType.parseByte value with
    | .ok n => .ok (.NumType n)
    | .error e => .error e
  else .error (.invalidValType value)

/-- The blanket impl Parse for any T with a one-byte parse
(src/lib.rs lines 118-130): error on empty input, otherwise drain one byte
and feed it to the byte-level parse. Note the byte is consumed even when
the byte-level parse fails. -/
def liftByte (p : Nat → Except PError α) (buf : List Nat) : PResult α :=
  match buf with
  | [] => .err .endOfBuffer []
  | b :: rest =>
    match p b with
    | .ok a => .ok a rest
    | .error e => .err e rest

/-- ValType::parse on a buffer, through the blanket byte impl. -/
def ValType.parse (buf : List Nat) : PResult ValType := liftByte ValType.parseByte buf

/-- RefType::parse on a buffer, through the blanket byte impl. -/
def RefType.parse (buf : List Nat) : PResult RefType := liftByte RefType.parseByte buf

/-- u32 impl of Parse (src/lib.rs lines 54-61): read_uleb128(32) then the
`as u32` truncating cast; never fails. -/
def parseU32 (buf : List Nat) : Nat × List Nat :=
  let (v, rest) := read_uleb128 32 buf
  (v % 2 ^ 32, rest)

/-- i32 impl of Parse (src/lib.rs lines 45-52): read_sleb128(32) then the
`as i32` truncating cast; the only failure is the panic of read_sleb128 on
an empty buffer. -/
def parseI32 (buf : List Nat) : PResult Int :=
  match read_sleb128 32 buf with
  | none => .panicked
  | some (v, rest) => .ok (wrapI32 v) rest

/-- i64 impl of Parse (src/lib.rs lines 62-69): read_sleb128(64). -/
def parseI64 (buf : List Nat) : PResult Int :=
  match read_sleb128 64 buf with
  | none => .panicked
  | some (v, rest) => .ok v rest

/-- Generic count-then-elements loop of the Vec impl
(src/types.rs lines 91-100): element count via u32::parse, then exactly
count elements, propagating the first element failure. -/
def parseVecCount (p : List Nat → PResult α) : Nat → List Nat → PResult (List α)
  | 0, buf => .ok [] buf
  | n + 1, buf =>
    (p buf).bind fun a rest =>
      (parseVecCount p n rest).bind fun as rest' => .ok (a :: as) rest'

/-- Vec of T impl of Parse (src/types.rs lines 91-100). -/
def parseVec (p : List Nat → PResult α) (buf : List Nat) : PResult (List α) :=
  let (len, rest) := parseU32 buf
  parseVecCount p len rest

/-- Vec of u8 impl of Parse (src/lib.rs lines 146-154): length prefix then
drain that many raw bytes; Vec::drain past the end of the buffer panics. -/
def parseByteVec (buf : List Nat) : PResult (List Nat) :=
  let (len, rest) := parseU32 buf
  if len ≤ rest.length then .ok (rest.take len) (rest.drop len)
  else .panicked

/-- String impl of Parse (src/lib.rs lines 132-144): length prefix then
drain that many bytes; the drain panics past the end of the buffer. The
String is modelled by its byte sequence; the UTF-8 re-validation of
String::from_utf8(..).unwrap(), whose sole effect is one further panic
source on non-UTF-8 bytes, is not modelled and no theorem below depends on
it. -/
def parseString (buf : List Nat) : PResult (List Nat) :=
  let (len, rest) := parseU32 buf
  if len ≤ rest.length then .ok (rest.take len) (rest.drop len)
  else .panicked

/-- u32 parse wrapped as a PResult step (it never fails). -/
def parseU32R (buf : List Nat) : PResult Nat :=
  let (v, rest) := parseU32 buf
  .ok v rest

/-- FuncType::parse (src/types.rs lines 102-119): 0x60 discriminant then
two result-type vectors. -/
def FuncType.parse (buf : List Nat) : PResult FuncType :=
  match buf with
  | [] => .err .endOfBuffer []
  | b :: rest =>
    if b = 0x60 then
      (parseVec ValType.parse rest).bind fun ps r1 =>
        (parseVec ValType.parse r1).bind fun rs r2 =>
          .ok ⟨ps, rs⟩ r2
    else .err (.invalidFuncType b) rest

/-- Limits::parse (src/types.rs lines 121-135). -/
def Limits.parse (buf : List Nat) : PResult Limits :=
  match buf with
  | [] => .err .endOfBuffer []
  | b :: rest =>
    if b = 0 then
      let (n, r) := parseU32 rest
      .ok ⟨n, none⟩ r
    else if b = 1 then
      let (n, r) := parseU32 rest
      let (m, r') := parseU32 r
      .ok ⟨n, some m⟩ r'
    else .err (.invalidLimits b) rest

/-- TableType::parse (src/types.rs lines 137-141). -/
def TableType.parse (buf : List Nat) : PResult TableType :=
  (RefType.parse buf).bind fun rt r =>
    (Limits.parse r).bind fun l r' => .ok ⟨rt, l⟩ r'

/-- GlobalType::parse (src/types.rs lines 143-152): a value type, then one
mutability byte (error on empty buffer, any nonzero byte means mutable). -/
def GlobalType.parse (buf : List Nat) : PResult GlobalType :=
  (ValType.parse buf).bind fun vt r =>
    match r with
    | [] => .err .endOfBuffer []
    | b :: rest => .ok ⟨b > 0, vt⟩ rest

/-! ## Instruction data model (src/instructions.rs) -/

/-- LaneIdx = u8 (src/instructions.rs line 284). -/
def LaneIdx := Nat
deriving instance DecidableEq, Repr for LaneIdx

/-- src/instructions.rs line 287: MemArg(u32, u32). -/
structure MemArg where
  a : Nat
  b : Nat
deriving DecidableEq, Repr

/-- src/instructions.rs lines 9-14. -/
inductive BlockType where
  | Empty : BlockType
  | ValType : ValType → BlockType
  | X : Int → BlockType
deriving DecidableEq, Repr

/-- The Instr enum (src/instructions.rs lines 16-282), one constructor per
source variant in source order. The 16-byte immediates of V128_Const and
I8X16_Shuffle are modelled as byte lists. -/
inductive Instr where
  | UnReachable
  | Nop
  | Block : BlockType → List Instr → Instr
  | Loop : BlockType → List Instr → Instr
  | If : BlockType → List Instr → Instr
  | IfElse : BlockType → List Instr → List Instr → Instr
  | Br : Nat → Instr
  | BrIf : Nat → Instr
  | BrTable : List Nat → Nat → Instr
  | Return
  | Call : Nat → Instr
  | CallIndirect : Nat → Nat → Instr
  | RefNull : Nat → Instr
  | RefIsNull
  | RefFunc : Nat → Instr
  | Drop
  | Select
  | SelectType : List ValType → Instr
  | LocalGet : Nat → Instr
  | LocalSet : Nat → Instr
  | LocalTee : Nat → Instr
  | GlobalGet : Nat → Instr
  | GlobalSet : Nat → Instr
  | TableGet : Nat → Instr
  | TableSet : Nat → Instr
  | TableInit : Nat → Nat → Instr
  | ElemDrop : Nat → Instr
  | TableCopy : Nat → Nat → Instr
  | TableGrow : Nat → Instr
  | TableSize : Nat → Instr
  | TableFill : Nat → Instr
  | I32Load : MemArg → Instr
  | I64Load : MemArg → Instr
  | F32Load : MemArg → Instr
  | F64Load : MemArg → Instr
  | I32load8S : MemArg → Instr
  | I32Load8_u : MemArg → Instr
  | I32Load16_s : MemArg → Instr
  | I32Load16_u : MemArg → Instr
  | I64Load8_s : MemArg → Instr
  | I64Load8_u : MemArg → Instr
  | I64Load16_s : MemArg → Instr
  | I64Load16_u : MemArg → Instr
  | I64Load32_s : MemArg → Instr
  | I64Load32_u : MemArg → Instr
  | I32Store : MemArg → Instr
  | I64Store : MemArg → Instr
  | F32Store : MemArg → Instr
  | F64Store : MemArg → Instr
  | I32Store8 : MemArg → Instr
  | I32Store16 : MemArg → Instr
  | I64Store8 : MemArg → Instr
  | I64Store16 : MemArg → Instr
  | I64Store32 : MemArg → Instr
  | MemorySize
  | MemoryGrow
  | MemoryInit : Nat → Instr
  | DataDrop : Nat → Instr
  | MemoryCopy
  | MemoryFill
  | I32Const : Int → Instr
  | I64Const : Int → Instr
  | F32Const : List Nat → Instr
  | F64Const : List Nat → Instr
  | I32Eqz
  | I32Eq
  | I32Ne
  | I32Lts
  | I32Ltu
  | I32Gts
  | I32Gtu
  | I32Les
  | I32Leu
  | I32Ges
  | I32Geu
  | I64Eqz
  | I64Eq
  | I64Ne
  | I64Lts
  | I64Ltu
  | I64Gts
  | I64Gtu
  | I64Les
  | I64Leu
  | I64Ges
  | I64Geu
  | F32Eq
  | F32Ne
  | F32Lt
  | F32Gt
  | F32Le
  | F32Ge
  | F64Eq
  | F64Ne
  | F64Lt
  | F64Gt
  | F64Le
  | F64Ge
  | I32Clz
  | I32Ctz
  | I32PopcCnt
  | I32Add
  | I32Sub
  | I32Mul
  | I32Divs
  | I32Divu
  | I32RemS
  | I32Remu
  | I32And
  | I32Or
  | I32Xor
  | I32Shl
  | I32Shrs
  | I32Sgru
  | I32Rotl
  | I32Rotr
  | I64Clz
  | I64Ctz
  | I64PopcCnt
  | I64Add
  | I64Sub
  | I64Mul
  | I64Divs
  | I64Divu
  | I64RemS
  | I64Remu
  | I64And
  | I64Or
  | I64Xor
  | I64Shl
  | I64Shrs
  | I64Sgru
  | I64Rotl
  | I64Rotr
  | F32Abs
  | F32Neg
  | F32Ceil
  | F32Floor
  | F32Trunc
  | F32Nearest
  | F32Sqrt
  | F32Add
  | F32Sub
  | F32Mul
  | F32Div
  | F32Min
  | F32Max
  | F32CopySig
  | F64Abs
  | F64Neg
  | F64Ceil
  | F64Floor
  | F64Trunc
  | F64Nearest
  | F64Sqrt
  | F64Add
  | F64Sub
  | F64Mul
  | F64Div
  | F64Min
  | F64Max
  | F64CopySig
  | I32WrapI64
  | I32TruncF32S
  | I32TruncF32U
  | I32TruncF64S
  | I32TruncF64U
  | I64ExtendI32S
  | I64ExtendI32U
  | I64TruncF32S
  | I64TruncF32U
  | I64TruncF64S
  | I64TruncF64U
  | F32ConvertI32S
  | F32ConvertI32U
  | F32ConvertI64S
  | F32ConvertI64U
  | F32DenoteF64
  | F64ConvertI32S
  | F64ConvertI32U
  | F64ConvertI64S
  | F64ConvertI64U
  | F64PromoteF32
  | I32ReinterpetF32
  | I64ReinterpetF64
  | F32ReinterpetI32
  | F64RetineroetI64
  | I32Extend8S
  | I32Extend16S
  | I64Extend8S
  | I64Extend16S
  | I64Extend32S
  | I32TruncSatF32S
  | I32TruncSatF32U
  | I32TruncSatF64S
  | I32TruncSatF64U
  | I64TruncSatF32S
  | I64TruncSatF32U
  | I64TructSatF64S
  | I64TructSatF64U
  | V128_Load : MemArg → Instr
  | V128_Load_8x8_S : MemArg → Instr
  | V128_Load_8x8_U : MemArg → Instr
  | V128_Load_16x4_S : MemArg → Instr
  | V128_Load_16x4_U : MemArg → Instr
  | V128_Load_32x2_S : MemArg → Instr
  | V128_Load_32x2_U : MemArg → Instr
  | V128_Load_8_Splat : MemArg → Instr
  | V128_Load_16_Splat : MemArg → Instr
  | V128_Load_32_Splat : MemArg → Instr
  | V128_Load_64_Splat : MemArg → Instr
  | V128_Load_32_Zero : MemArg → Instr
  | V128_Load_64_Zero : MemArg → Instr
  | V128_Store : MemArg → Instr
  | V128_Load_8_Lane : MemArg → LaneIdx → Instr
  | V128_Load_16_Lane : MemArg → LaneIdx → Instr
  | V128_Load_32_Lane : MemArg → LaneIdx → Instr
  | V128_Load_64_Lane : MemArg → LaneIdx → Instr
  | V128_Store_8_Lane : MemArg → LaneIdx → Instr
  | V128_Store_16_Lane : MemArg → LaneIdx → Instr
  | V128_Store_32_Lane : MemArg → LaneIdx → Instr
  | V128_Store_64_Lane : MemArg → LaneIdx → Instr
  | V128_Const : List Nat → Instr
  | I8X16_Shuffle : List Nat → Instr
  | I8X16_Extract_Lane_S : LaneIdx → Instr
  | I8X16_Extract_Lane_U : LaneIdx → Instr
  | I8X16_Replace_Lane : LaneIdx → Instr
  | I16X8_Extract_Lane_S : LaneIdx → Instr
  | I16X8_Extract_Lane_U : LaneIdx → Instr
  | I16X8_Replace_Lane : LaneIdx → Instr
  | I32X4_Extract_Lane : LaneIdx → Instr
  | I32X4_Replace_Lane : LaneIdx → Instr
  | I64X2_Extract_Lane : LaneIdx → Instr
  | I64X2_Replace_Lane : LaneIdx → Instr
  | F32X4_Extract_Lane : LaneIdx → Instr
  | F32X4_Replace_Lane : LaneIdx → Instr
  | F64X2_Extract_Lane : LaneIdx → Instr
  | F64X2_Replace_Lane : LaneIdx → Instr
  | I8x16_Swizzle
  | I8X16_Splat
  | I16X8_Splat
  | I32X4_Splat
  | I64X2_Splat
  | F32X4_Splat
  | F64X2_Splat
  | I8X16_Eq
deriving Repr

/-! ## Instruction decoder (src/instructions.rs) -/

/-- MemArg impl of Parse (src/instructions.rs lines 289-295): two
read_uleb128(32) reads with `as u32` casts; never fails. -/
def MemArg.parse (buf : List Nat) : MemArg × List Nat :=
  let (a, r) := read_uleb128 32 buf
  let (b, r') := read_uleb128 32 r
  (⟨a % 2 ^ 32, b % 2 ^ 32⟩, r')

/-- BlockType impl of Parse (src/instructions.rs lines 297-318): error on
empty input; byte 0x40 means Empty; otherwise a ValType trial decode whose
probed byte stays consumed on failure (the blanket byte impl drains before
testing); then a guard requiring at least 3 remaining bytes; then a signed
33-bit LEB128 read. -/
def BlockType.parse (buf : List Nat) : PResult BlockType :=
  match buf with
  | [] => .err .endOfBuffer []
  | b :: rest =>
    if b = 0x40 then .ok .Empty rest
    else
      match ValType.parse (b :: rest) with
      | .ok vt r => .ok (.ValType vt) r
      | .err _ r =>
        if r.length < 3 then .err .endOfBuffer r
        else
          match read_sleb128 33 r with
          | none => .panicked
          | some (v, r') => .ok (.X v) r'
      | .panicked => .panicked
      | .outOfFuel => .outOfFuel

/-- The 0xFC sub-opcode dispatch of Instr::parse
(src/instructions.rs lines 448-520), one branch per source match arm in
source order; every unlisted sub-opcode and every nonzero reserved byte
hits unimplemented!, a process abort. -/
def Instr.parseFC (sub : Nat) (buf : List Nat) : PResult Instr :=
  match sub with
  | 0 => .ok .I32TruncSatF32S buf
  | 1 => .ok .I32TruncSatF32U buf
  | 2 => .ok .I32TruncSatF64S buf
  | 3 => .ok .I32TruncSatF64U buf
  | 4 => .ok .I64TruncSatF32S buf
  | 5 => .ok .I64TruncSatF32U buf
  | 6 => .ok .I64TructSatF64S buf
  | 7 => .ok .I64TructSatF64U buf
  | 8 =>
    let (a, r) := parseU32 buf
    (match r with
    | [] => .panicked
    | b :: r' => if b = 0 then .ok (.MemoryInit a) r' else .panicked)
  | 9 =>
    let (a, r) := parseU32 buf
    .ok (.DataDrop a) r
  | 10 =>
    (match buf with
    | b1 :: b2 :: r => if b1 = 0 ∧ b2 = 0 then .ok .MemoryCopy r else .panicked
    | _ => .panicked)
  | 11 =>
    (match buf with
    | [] => .panicked
    | b :: r => if b = 0 then .ok .MemoryFill r else .panicked)
  | 12 =>
    let (a, r) := parseU32 buf
    let (b, r') := parseU32 r
    .ok (.TableInit a b) r'
  | 13 =>
    let (a, r) := parseU32 buf
    .ok (.ElemDrop a) r
  | 14 =>
    let (a, r) := parseU32 buf
    let (b, r') := parseU32 r
    .ok (.TableCopy a b) r'
  | 15 =>
    let (a, r) := parseU32 buf
    .ok (.TableGrow a) r
  | 16 =>
    let (a, r) := parseU32 buf
    .ok (.TableSize a) r
  | 17 =>
    let (a, r) := parseU32 buf
    .ok (.TableFill a) r
  | _ => .panicked

/-- The 0xFD (vector) sub-opcode dispatch of Instr::parse
(src/instructions.rs lines 549-621), one branch per source match arm in
source order. Sub-opcodes 0 to 11 and 92, 93 all collapse onto V128_Load;
14 to 20 onto I8x16_Swizzle; 21 to 34 onto I8X16_Extract_Lane_S; 35 to 255
onto I8X16_Eq. The source arm for 84 to 91 building V128_Load_8_Lane sits
after the 35 to 255 arm and is kept here in the same position. -/
def Instr.parseFD (sub : Nat) (buf : List Nat) : PResult Instr :=
  if sub ≤ 11 ∨ sub = 92 ∨ sub = 93 then
    let (a, r) := MemArg.parse buf
    .ok (.V128_Load a) r
  else if sub = 12 then
    if buf.length < 16 then .panicked
    else .ok (.V128_Const (buf.take 16)) (buf.drop 16)
  else if sub = 13 then
    if buf.length < 16 then .panicked
    else .ok (.I8X16_Shuffle (buf.take 16)) (buf.drop 16)
  else if 14 ≤ sub ∧ sub ≤ 20 then .ok .I8x16_Swizzle buf
  else if 21 ≤ sub ∧ sub ≤ 34 then
    match buf with
    | [] => .panicked
    | b :: r => .ok (.I8X16_Extract_Lane_S b) r
  else if 35 ≤ sub ∧ sub ≤ 255 then .ok .I8X16_Eq buf
  else if 84 ≤ sub ∧ sub ≤ 91 then
    let (a, r) := MemArg.parse buf
    match r with
    | [] => .panicked
    | b :: r' => .ok (.V128_Load_8_Lane a b) r'
  else .panicked

mutual

/-- Instr impl of Parse (src/instructions.rs lines 320-628): error on
empty input, then drain the opcode byte and dispatch, one branch per
source match arm in source order. Unmatched opcode bytes hit
panic!("Unimplemented instruction"), a process abort. The fuel argument is
an embedding artifact bounding the recursion depth of the descent. -/
def Instr.parse : Nat → List Nat → PResult Instr
  | 0, _ => .outOfFuel
  | fuel + 1, buf =>
    match buf with
    | [] => .err .endOfBuffer []
    | b :: rest =>
      match b with
      | 0x00 => .ok .UnReachable rest
      | 0x01 => .ok .Nop rest
      | 0x02 =>
        (BlockType.parse rest).bind fun bt r =>
          (Instr.parseSeq fuel r).bind fun body r' => .ok (.Block bt body) r'
      | 0x03 =>
        (BlockType.parse rest).bind fun bt r =>
          (Instr.parseSeq fuel r).bind fun body r' => .ok (.Loop bt body) r'
      | 0x04 =>
        (BlockType.parse rest).bind fun bt r =>
          (Instr.parseIfSeq fuel r).bind fun bodies r' =>
            match bodies.2 with
            | none => .ok (.If bt bodies.1) r'
            | some els => .ok (.IfElse bt bodies.1 els) r'
      | 0x0C =>
        let (u, r) := parseU32 rest
        .ok (.Br u) r
      | 0x0D =>
        let (u, r) := parseU32 rest
        .ok (.BrIf u) r
      | 0x0E =>
        (parseVec parseU32R rest).bind fun l r =>
          let (l1, r') := parseU32 r
          .ok (.BrTable l l1) r'
      | 0x0F => .ok .Return rest
      | 0x10 =>
        let (u, r) := parseU32 rest
        .ok (.Call u) r
      | 0x11 =>
        let (u, r) := parseU32 rest
        let (t, r') := parseU32 r
        .ok (.CallIndirect u t) r'
      | 0xD0 =>
        let (u, r) := parseU32 rest
        .ok (.RefNull u) r
      | 0xD1 => .ok .RefIsNull rest
      | 0xD2 =>
        let (u, r) := parseU32 rest
        .ok (.RefFunc u) r
      | 0x1A => .ok .Drop rest
      | 0x1B => .ok .Select rest
      | 0x1C =>
        (parseVec ValType.parse rest).bind fun t r => .ok (.SelectType t) r
      | 0x20 =>
        let (u, r) := parseU32 rest
        .ok (.LocalGet u) r
      | 0x21 =>
        let (u, r) := parseU32 rest
        .ok (.LocalSet u) r
      | 0x22 =>
        let (u, r) := parseU32 rest
        .ok (.LocalTee u) r
      | 0x23 =>
        let (u, r) := parseU32 rest
        .ok (.GlobalGet u) r
      | 0x24 =>
        let (u, r) := parseU32 rest
        .ok (.GlobalSet u) r
      | 0x25 =>
        let (u, r) := parseU32 rest
        .ok (.TableGet u) r
      | 0x26 =>
        let (u, r) := parseU32 rest
        .ok (.TableSet u) r
      | 0xFC =>
        let (u, r) := parseU32 rest
        Instr.parseFC u r
      | 0x3F =>
        (match rest with
        | [] => .panicked
        | b2 :: r => if b2 = 0 then .ok .MemorySize r else Instr.parse fuel r)
      | 0x40 =>
        (match rest with
        | [] => .panicked
        | b2 :: r => if b2 = 0 then .ok .MemorySize r else Instr.parse fuel r)
      | 0x41 =>
        (parseI32 rest).bind fun v r => .ok (.I32Const v) r
      | 0x42 =>
        (parseI64 rest).bind fun v r => .ok (.I64Const v) r
      | 0x43 =>
        if rest.length < 4 then .err .endOfBuffer rest
        else .ok (.F32Const (rest.take 4)) (rest.drop 4)
      | 0x44 =>
        if rest.length < 8 then .err .endOfBuffer rest
        else .ok (.F64Const (rest.take 8)) (rest.drop 8)
      | 0xFD =>
        let (u, r) := parseU32 rest
        Instr.parseFD u r
      | other =>
        -- The two range arms of the source match (0x28..=0x3E memory
        -- access and 0x45..=0xC4 plain numeric operators) land here; no
        -- single-byte arm above lies inside either range, so testing them
        -- after the single-byte arms decodes identically to source order.
        if 0x28 ≤ other ∧ other ≤ 0x3E then
          let (a, r) := MemArg.parse rest
          .ok (.I32Load a) r
        else if 0x45 ≤ other ∧ other ≤ 0xC4 then .ok .I32Eqz rest
        else .panicked

/-- The terminator-scanning loop shared by the block and loop arms of
Instr::parse (src/instructions.rs lines 333-340 and 345-352), by the else
branch of the if arm (lines 367-373), and textually duplicated by
Expr::parse (src/modules.rs lines 128-138): peek the next byte through
first().unwrap(), a panic on an empty buffer; consume a 0x0B terminator
and stop, otherwise decode one instruction and continue. -/
def Instr.parseSeq : Nat → List Nat → PResult (List Instr)
  | 0, _ => .outOfFuel
  | fuel + 1, buf =>
    match buf with
    | [] => .panicked
    | b :: rest =>
      if b = 0x0B then .ok [] rest
      else
        (Instr.parse fuel (b :: rest)).bind fun i r =>
          (Instr.parseSeq fuel r).bind fun is r' => .ok (i :: is) r'

/-- The then-branch loop of the if arm of Instr::parse
(src/instructions.rs lines 355-381): peek the next byte (panic on empty);
0x0B closes the if with no else branch; 0x05 closes the then branch and
opens the else loop; anything else decodes one instruction into the then
sequence. -/
def Instr.parseIfSeq : Nat → List Nat → PResult (List Instr × Option (List Instr))
  | 0, _ => .outOfFuel
  | fuel + 1, buf =>
    match buf with
    | [] => .panicked
    | b :: rest =>
      if b = 0x0B then .ok ([], none) rest
      else if b = 0x05 then
        (Instr.parseSeq fuel rest).bind fun els r => .ok ([], some els) r
      else
        (Instr.parse fuel (b :: rest)).bind fun i r =>
          (Instr.parseIfSeq fuel r).bind fun p r' => .ok (i :: p.1, p.2) r'

end

/-! ## Section and module data model (src/modules.rs) -/

/-- src/modules.rs line 100: Expr(Vec of Instr). -/
structure Expr where
  instrs : List Instr
deriving Repr

/-- src/modules.rs lines 47-53. -/
inductive ImportDesc where
  | TypeIdx : Nat → ImportDesc
  | TableType : TableType → ImportDesc
  | MemType : Limits → ImportDesc
  | GlobalType : GlobalType → ImportDesc
deriving Repr

/-- src/modules.rs lines 40-45. Strings are modelled by their bytes. -/
structure Import where
  module : List Nat
  name : List Nat
  desc : ImportDesc
deriving Repr

/-- src/modules.rs lines 67-73. -/
inductive ExportDesc where
  | FuncIdx : Nat → ExportDesc
  | TableIdx : Nat → ExportDesc
  | MemIdx : Nat → ExportDesc
  | GlobalIdx : Nat → ExportDesc
deriving Repr

/-- src/modules.rs lines 79-89. -/
inductive Elem where
  | A : Expr → List Nat → Elem
  | B : Nat → List Nat → Elem
  | C : Nat → Expr → Nat → List Nat → Elem
  | D : Nat → List Nat → Elem
  | E : Expr → List Expr → Elem
  | F : RefType → List Expr → Elem
  | G : Nat → Expr → RefType → List Expr → Elem
  | H : RefType → List Expr → Elem
deriving Repr

/-- src/modules.rs line 97: Locals(u32, ValType). -/
structure Locals where
  count : Nat
  valtype : ValType
deriving Repr

/-- src/modules.rs line 95: Func(Vec of Locals, Expr). -/
structure Func where
  locals : List Locals
  body : Expr
deriving Repr

/-- src/modules.rs line 93: Code(u32, Func); the u32 is the declared code
entry size, stored but never checked. -/
structure Code where
  size : Nat
  func : Func
deriving Repr

/-- src/modules.rs lines 104-109. -/
inductive Data where
  | A : Expr → List Nat → Data
  | B : List Nat → Data
  | C : Nat → Expr → List Nat → Data
deriving Repr

/-- The Section enum (src/modules.rs lines 18-34). The constructor for the
type section is named TypeS because Type is a Lean keyword; all payload
type aliases of the source are inlined. -/
inductive Section where
  | Custom : List Nat → List Nat → Section
  | TypeS : List FuncType → Section
  | Import : List Import → Section
  | Function : List Nat → Section
  | Table : List TableType → Section
  | Memory : List Limits → Section
  | Global : List (GlobalType × Expr) → Section
  | Export : List (List Nat × ExportDesc) → Section
  | Start : Nat → Section
  | Element : List Elem → Section
  | Code : List Code → Section
  | Data : List Data → Section
  | DataCountSection : Nat → Section
  | Unknown : List Nat → Section
deriving Repr

/-- src/modules.rs lines 116-121. Named WModule because Module is the
Mathlib typeclass. -/
structure WModule where
  magic : Nat
  version : Nat
  sections : List Section
deriving Repr

/-- The unused magic constant of the source (src/modules.rs line 113).
Note that the little-endian read of the four magic bytes 0x00 0x61 0x73
0x6D yields 0x6D736100, not this value. -/
def MAGIC : Nat := 0x0061736D

/-- The unused version constant of the source (src/modules.rs line 114). -/
def VERSION : Nat := 0x01000000

/-! ## Section and module decoders (src/modules.rs) -/

/-- Expr impl of Parse (src/modules.rs lines 123-141): the same
peek-until-0x0B instruction loop as the block arms of Instr::parse. -/
def Expr.parse (fuel : Nat) (buf : List Nat) : PResult Expr :=
  (Instr.parseSeq fuel buf).bind fun is r => .ok ⟨is⟩ r

/-- ImportDesc impl of Parse (src/modules.rs lines 155-174): error on
empty input, drain the kind byte, dispatch on 0 to 3; any other kind byte
hits unimplemented!, a process abort. -/
def ImportDesc.parse (buf : List Nat) : PResult ImportDesc :=
  match buf with
  | [] => .err .endOfBuffer []
  | b :: rest =>
    if b = 0 then
      let (u, r) := parseU32 rest
      .ok (.TypeIdx u) r
    else if b = 1 then
      (TableType.parse rest).bind fun t r => .ok (.TableType t) r
    else if b = 2 then
      (Limits.parse rest).bind fun l r => .ok (.MemType l) r
    else if b = 3 then
      (GlobalType.parse rest).bind fun g r => .ok (.GlobalType g) r
    else .panicked

/-- Import impl of Parse (src/modules.rs lines 143-153). -/
def Import.parse (buf : List Nat) : PResult Import :=
  (parseString buf).bind fun m r =>
    (parseString r).bind fun n r' =>
      (ImportDesc.parse r').bind fun d r'' => .ok ⟨m, n, d⟩ r''

/-- ExportDesc impl of Parse (src/modules.rs lines 298-317): error on
empty input, drain the kind byte, dispatch on 0 to 3; any other kind byte
hits unimplemented!, a process abort. -/
def ExportDesc.parse (buf : List Nat) : PResult ExportDesc :=
  match buf with
  | [] => .err .endOfBuffer []
  | b :: rest =>
    if b = 0 then
      let (u, r) := parseU32 rest
      .ok (.FuncIdx u) r
    else if b = 1 then
      let (u, r) := parseU32 rest
      .ok (.TableIdx u) r
    else if b = 2 then
      let (u, r) := parseU32 rest
      .ok (.MemIdx u) r
    else if b = 3 then
      let (u, r) := parseU32 rest
      .ok (.GlobalIdx u) r
    else .panicked

/-- The (T1, T2) pair impl of Parse (src/lib.rs lines 156-166). -/
def parsePair (p : List Nat → PResult α) (q : List Nat → PResult β)
    (buf : List Nat) : PResult (α × β) :=
  (p buf).bind fun a r => (q r).bind fun b r' => .ok (a, b) r'

/-- Elem impl of Parse (src/modules.rs lines 176-215): a leading unsigned
LEB128 discriminant (via u32::parse), then one of the eight element
shapes; discriminants above 7 hit unimplemented!, a process abort. The
initial is_empty guard of the source is subsumed for discriminants,
because u32::parse on an empty buffer yields 0. -/
def Elem.parse (fuel : Nat) (buf : List Nat) : PResult Elem :=
  match buf with
  | [] => .err .endOfBuffer []
  | _ :: _ =>
    let (d, rest) := parseU32 buf
    if d = 0 then
      (Expr.parse fuel rest).bind fun e r =>
        (parseVec parseU32R r).bind fun v r' => .ok (.A e v) r'
    else if d = 1 then
      match rest with
      | [] => .panicked
      | b :: r =>
        (parseVec parseU32R r).bind fun v r' => .ok (.B b v) r'
    else if d = 2 then
      let (a, r) := parseU32 rest
      (Expr.parse fuel r).bind fun e r' =>
        match r' with
        | [] => .panicked
        | c :: r'' =>
          (parseVec parseU32R r'').bind fun v r3 => .ok (.C a e c v) r3
    else if d = 3 then
      match rest with
      | [] => .panicked
      | b :: r =>
        (parseVec parseU32R r).bind fun v r' => .ok (.D b v) r'
    else if d = 4 then
      (Expr.parse fuel rest).bind fun e r =>
        (parseVec (Expr.parse fuel) r).bind fun v r' => .ok (.E e v) r'
    else if d = 5 then
      (RefType.parse rest).bind fun t r =>
        (parseVec (Expr.parse fuel) r).bind fun v r' => .ok (.F t v) r'
    else if d = 6 then
      let (a, r) := parseU32 rest
      (Expr.parse fuel r).bind fun e r' =>
        (RefType.parse r').bind fun t r'' =>
          (parseVec (Expr.parse fuel) r'').bind fun v r3 => .ok (.G a e t v) r3
    else if d = 7 then
      (RefType.parse rest).bind fun t r =>
        (parseVec (Expr.parse fuel) r).bind fun v r' => .ok (.H t v) r'
    else .panicked

/-- Data impl of Parse (src/modules.rs lines 217-234): a leading unsigned
LEB128 discriminant, then one of the three data shapes; discriminants
above 2 hit unimplemented!, a process abort. -/
def Data.parse (fuel : Nat) (buf : List Nat) : PResult Data :=
  match buf with
  | [] => .err .endOfBuffer []
  | _ :: _ =>
    let (d, rest) := parseU32 buf
    if d = 0 then
      (Expr.parse fuel rest).bind fun e r =>
        (parseByteVec r).bind fun v r' => .ok (.A e v) r'
    else if d = 1 then
      (parseByteVec rest).bind fun v r => .ok (.B v) r
    else if d = 2 then
      let (a, r) := parseU32 rest
      (Expr.parse fuel r).bind fun e r' =>
        (parseByteVec r').bind fun v r'' => .ok (.C a e v) r''
    else .panicked

/-- Locals impl of Parse (src/modules.rs lines 236-244). -/
def Locals.parse (buf : List Nat) : PResult Locals :=
  let (c, r) := parseU32 buf
  (ValType.parse r).bind fun vt r' => .ok ⟨c, vt⟩ r'

/-- Func impl of Parse (src/modules.rs lines 245-252). -/
def Func.parse (fuel : Nat) (buf : List Nat) : PResult Func :=
  (parseVec Locals.parse buf).bind fun ls r =>
    (Expr.parse fuel r).bind fun e r' => .ok ⟨ls, e⟩ r'

/-- Code impl of Parse (src/modules.rs lines 253-260): a declared size
read via u32::parse and stored unchecked, then the function body. -/
def Code.parse (fuel : Nat) (buf : List Nat) : PResult Code :=
  let (s, r) := parseU32 buf
  (Func.parse fuel r).bind fun f r' => .ok ⟨s, f⟩ r'

/-- Section impl of Parse (src/modules.rs lines 262-296): drain the kind
byte (a panic on an empty buffer, there is no guard), read the declared
size via u32::parse, then dispatch. The declared size is used only by the
custom arm (to drain the bytes after the name) and the unknown arm (to
drain the raw payload); every structured arm decodes its payload with no
check that it consumes exactly size bytes. -/
def Section.parse (fuel : Nat) (buf : List Nat) : PResult Section :=
  match buf with
  | [] => .panicked
  | id :: rest =>
    let (size, r) := parseU32 rest
    if id = 0 then
      (parseString r).bind fun name r' =>
        let readed := r.length - r'.length
        if size < readed then .panicked
        else if size - readed ≤ r'.length then
          .ok (.Custom name (r'.take (size - readed))) (r'.drop (size - readed))
        else .panicked
    else if id = 1 then
      (parseVec FuncType.parse r).bind fun v r' => .ok (.TypeS v) r'
    else if id = 2 then
      (parseVec Import.parse r).bind fun v r' => .ok (.Import v) r'
    else if id = 3 then
      (parseVec parseU32R r).bind fun v r' => .ok (.Function v) r'
    else if id = 4 then
      (parseVec TableType.parse r).bind fun v r' => .ok (.Table v) r'
    else if id = 5 then
      (parseVec Limits.parse r).bind fun v r' => .ok (.Memory v) r'
    else if id = 6 then
      (parseVec (parsePair GlobalType.parse (Expr.parse fuel)) r).bind fun v r' =>
        .ok (.Global v) r'
    else if id = 7 then
      (parseVec (parsePair parseString ExportDesc.parse) r).bind fun v r' =>
        .ok (.Export v) r'
    else if id = 8 then
      let (u, r') := parseU32 r
      .ok (.Start u) r'
    else if id = 9 then
      (parseVec (Elem.parse fuel) r).bind fun v r' => .ok (.Element v) r'
    else if id = 10 then
      (parseVec (Code.parse fuel) r).bind fun v r' => .ok (.Code v) r'
    else if id = 11 then
      (parseVec (Data.parse fuel) r).bind fun v r' => .ok (.Data v) r'
    else if id = 12 then
      let (u, r') := parseU32 r
      .ok (.DataCountSection u) r'
    else
      if size ≤ r.length then .ok (.Unknown (r.take size)) (r.drop size)
      else .panicked

/-- The section loop of Module::parse (src/modules.rs lines 344-353):
decode sections until the buffer is empty, propagating failures. -/
def WModule.parseSections : Nat → List Nat → PResult (List Section)
  | 0, _ => .outOfFuel
  | fuel + 1, buf =>
    match buf with
    | [] => .ok [] []
    | _ :: _ =>
      (Section.parse fuel buf).bind fun s r =>
        (WModule.parseSections fuel r).bind fun ss r' => .ok (s :: ss) r'

/-- Little-endian u32 from four bytes (u32::from_le_bytes). -/
def le32 (b0 b1 b2 b3 : Nat) : Nat :=
  b0 + 256 * b1 + 65536 * b2 + 16777216 * b3

/-- Module impl of Parse (src/modules.rs lines 319-361): drain eight
preamble bytes (a panic when fewer remain), store magic and version
without comparing them against any expected constant, then decode sections
until the input is exhausted. -/
def WModule.parse (fuel : Nat) (buf : List Nat) : PResult WModule :=
  match buf with
  | m0 :: m1 :: m2 :: m3 :: v0 :: v1 :: v2 :: v3 :: rest =>
    (WModule.parseSections fuel rest).bind fun ss r =>
      .ok ⟨le32 m0 m1 m2 m3, le32 v0 v1 v2 v3, ss⟩ r
  | _ => .panicked

/-! ## Predicates used by the claim theorems -/

/-- The eight lane memory-access variants of Instr
(src/instructions.rs lines 245-252). -/
def Instr.isLaneMem : Instr → Bool
  | .V128_Load_8_Lane _ _ => true
  | .V128_Load_16_Lane _ _ => true
  | .V128_Load_32_Lane _ _ => true
  | .V128_Load_64_Lane _ _ => true
  | .V128_Store_8_Lane _ _ => true
  | .V128_Store_16_Lane _ _ => true
  | .V128_Store_32_Lane _ _ => true
  | .V128_Store_64_Lane _ _ => true
  | _ => false

/-- An instruction encoding b of the instruction i is self-contained when
Instr::parse on b followed by any suffix succeeds with i and consumes
exactly b, given fuel at least the length of b. This captures the notion
of a complete single-instruction byte encoding. -/
def SelfContained (b : List Nat) (i : Instr) : Prop :=
  ∀ (s : List Nat) (fuel : Nat), b.length ≤ fuel → Instr.parse fuel (b ++ s) = .ok i s

/-- A list of encoding and instruction pairs forming a well-formed
instruction sequence: every encoding is nonempty, starts with a byte other
than the else marker 0x05 and the terminator 0x0B (no top-level 0x05 or
0x0B byte), and is self-contained. -/
def EncSeq (l : List (List Nat × Instr)) : Prop :=
  ∀ p ∈ l, p.1 ≠ [] ∧ p.1.head? ≠ some 0x05 ∧ p.1.head? ≠ some 0x0B ∧ SelfContained p.1 p.2

/-- The concatenated bytes of an encoded instruction sequence. -/
def encBytes (l : List (List Nat × Instr)) : List Nat := (l.map Prod.fst).flatten

/-! ## Regression checks against the unit tests of src/lib.rs -/

example : write_uleb128 2121 = [201, 16] := by decide
example : read_uleb128 32 [201, 16] = (2121, []) := by decide
example : read_uleb128 64 [201, 16] = (2121, []) := by decide
example : write_sleb128 (-2121) = [183, 111] := by decide
example : read_sleb128 32 [183, 111] = some (-2121, []) := by decide
example : read_sleb128 64 [183, 111] = some (-2121, []) := by decide
example : read_uleb128 32 (write_uleb128 (2 ^ 32 - 1)) = (2 ^ 32 - 1, []) := by decide
example : read_sleb128 32 (write_sleb128 (2 ^ 31 - 1)) = some (2 ^ 31 - 1, []) := by decide

/-! ## Helper lemmas -/

/-- Every successful result of the 0xFC dispatch is a non-lane variant. -/
theorem parseFC_notLane (sub : Nat) (buf : List Nat) (i : Instr) (r : List Nat)
    (h : Instr.parseFC sub buf = .ok i r) : i.isLaneMem = false := by
  unfold Instr.parseFC at h
  repeat' split at h
  all_goals first
    | omega
    | (cases h; rfl)
    | cases h

/-- Every successful result of the 0xFD dispatch is a non-lane variant:
the only arm building a lane variant requires a sub-opcode in 84 to 91,
which the earlier 35 to 255 arm has already captured. -/
theorem parseFD_notLane (sub : Nat) (buf : List Nat) (i : Instr) (r : List Nat)
    (h : Instr.parseFD sub buf = .ok i r) : i.isLaneMem = false := by
  unfold Instr.parseFD at h
  repeat' split at h
  all_goals first
    | omega
    | (cases h; rfl)
    | cases h

/-- Unfolding step for the if arm of Instr::parse. -/
theorem instrParse_if_step (f : Nat) (tail : List Nat) :
    Instr.parse (f + 1) (0x04 :: tail) = (BlockType.parse tail).bind fun bt r =>
      (Instr.parseIfSeq f r).bind fun bodies r' =>
        match bodies.2 with
        | none => .ok (.If bt bodies.1) r'
        | some els => .ok (.IfElse bt bodies.1 els) r' := rfl

/-- The byte 0x40 decodes to the empty block type. -/
theorem blockType_empty_step (r : List Nat) :
    BlockType.parse (0x40 :: r) = .ok .Empty r := rfl

/-- The shared terminator loop applied to a well-formed encoded sequence
followed by 0x0B and a further suffix decodes exactly the listed instructions
and stops right after the terminator. -/
theorem parseSeq_encSeq (l : List (List Nat × Instr)) (hl : EncSeq l) :
    ∀ (fuel : Nat) (rest : List Nat),
      (encBytes l).length + l.length + 1 ≤ fuel →
      Instr.parseSeq fuel (encBytes l ++ 0x0B :: rest) = .ok (l.map Prod.snd) rest := by
  induction l with
  | nil =>
    intro fuel rest hf
    obtain ⟨f, rfl⟩ : ∃ f, fuel = f + 1 := ⟨fuel - 1, by omega⟩
    simp [Instr.parseSeq, encBytes]
  | cons p l ih =>
    intro fuel rest hf
    obtain ⟨hne, h5, h11, hsc⟩ := hl p (List.mem_cons_self p l)
    obtain ⟨b0, bt, hb⟩ := List.exists_cons_of_ne_nil hne
    obtain ⟨f, rfl⟩ : ∃ f, fuel = f + 1 := ⟨fuel - 1, by omega⟩
    have hlen1 : p.1.length = bt.length + 1 := by rw [hb]; simp
    have hlenc : (encBytes (p :: l)).length = p.1.length + (encBytes l).length := by
      simp [encBytes]
    have hb0 : b0 ≠ 0x0B := by
      intro hcon
      apply h11
      rw [hb, hcon]
      rfl
    have htail : EncSeq l := fun q hq => hl q (List.mem_cons_of_mem p hq)
    rw [hlenc, hlen1] at hf
    simp only [List.length_cons] at hf
    have hstep : encBytes (p :: l) ++ 0x0B :: rest
        = b0 :: (bt ++ (encBytes l ++ 0x0B :: rest)) := by
      simp [encBytes, hb]
    rw [hstep]
    simp only [Instr.parseSeq]
    rw [if_neg hb0]
    have hparse := hsc (encBytes l ++ 0x0B :: rest) f (by omega)
    rw [hb] at hparse
    simp only [List.cons_append] at hparse
    rw [hparse]
    simp only [PResult.bind]
    rw [ih htail f rest (by omega)]
    simp [PResult.bind]

/-- The then-branch loop applied to a well-formed then sequence, the else
marker 0x05, a well-formed else sequence and the terminator 0x0B decodes
both sequences exactly. -/
theorem parseIfSeq_encSeq (tl el : List (List Nat × Instr)) (ht : EncSeq tl) (he : EncSeq el) :
    ∀ (fuel : Nat) (rest : List Nat),
      (encBytes tl).length + tl.length + (encBytes el).length + el.length + 2 ≤ fuel →
      Instr.parseIfSeq fuel (encBytes tl ++ 0x05 :: encBytes el ++ 0x0B :: rest)
        = .ok (tl.map Prod.snd, some (el.map Prod.snd)) rest := by
  induction tl with
  | nil =>
    intro fuel rest hf
    obtain ⟨f, rfl⟩ : ∃ f, fuel = f + 1 := ⟨fuel - 1, by omega⟩
    have h0 : encBytes ([] : List (List Nat × Instr)) = [] := rfl
    rw [h0, List.nil_append]
    simp only [Instr.parseIfSeq]
    norm_num
    simp only [List.length_nil] at hf
    rw [h0, List.length_nil] at hf
    rw [parseSeq_encSeq el he f rest (by omega)]
    simp [PResult.bind]
  | cons p tl ih =>
    intro fuel rest hf
    obtain ⟨hne, h5, h11, hsc⟩ := ht p (List.mem_cons_self p tl)
    obtain ⟨b0, bt, hb⟩ := List.exists_cons_of_ne_nil hne
    obtain ⟨f, rfl⟩ : ∃ f, fuel = f + 1 := ⟨fuel - 1, by omega⟩
    have hlen1 : p.1.length = bt.length + 1 := by rw [hb]; simp
    have hlenc : (encBytes (p :: tl)).length = p.1.length + (encBytes tl).length := by
      simp [encBytes]
    have hb0 : b0 ≠ 0x0B := by
      intro hcon
      apply h11
      rw [hb, hcon]
      rfl
    have hb0' : b0 ≠ 0x05 := by
      intro hcon
      apply h5
      rw [hb, hcon]
      rfl
    have htail : EncSeq tl := fun q hq => ht q (List.mem_cons_of_mem p hq)
    rw [hlenc, hlen1] at hf
    simp only [List.length_cons] at hf
    have hstep : encBytes (p :: tl) ++ 0x05 :: encBytes el ++ 0x0B :: rest
        = b0 :: (bt ++ (encBytes tl ++ 0x05 :: encBytes el ++ 0x0B :: rest)) := by
      simp [encBytes, hb]
    rw [hstep]
    simp only [Instr.parseIfSeq]
    rw [if_neg hb0, if_neg hb0']
    have hparse := hsc (encBytes tl ++ 0x05 :: encBytes el ++ 0x0B :: rest) f (by omega)
    rw [hb] at hparse
    simp only [List.cons_append] at hparse
    rw [hparse]
    simp only [PResult.bind]
    rw [ih htail f rest (by omega)]
    simp [PResult.bind]

/-! ## Claim theorems -/

/-- Claim C1. The claim states that an opcode byte (or 0xFC or 0xFD
sub-opcode) with no mapped variant yields a decode error and never aborts
the process. The code does the opposite: the catch-all arms of
Instr::parse call panic! and unimplemented!, an unconditional process
abort, here evaluated on the unmapped opcode bytes 0x05 and 0x06, the
unmapped 0xFC sub-opcode 18, and the unmapped 0xFD sub-opcode 256. -/
theorem c1_unmapped_opcode_aborts :
    Instr.parse 1 [0x05] = .panicked ∧
    Instr.parse 1 [0x06] = .panicked ∧
    Instr.parse 1 [0xFC, 18] = .panicked ∧
    Instr.parse 1 [0xFD, 0x80, 0x02] = .panicked :=
  ⟨rfl, rfl, rfl, rfl⟩

/-- Claim C2. The claim states that read_uleb128 and read_sleb128 fail
with a decode error on a read past the end of the buffer or an encoding
with more groups than the width permits. The code instead returns the
default value 0 in both situations for the unsigned read (which cannot
fail at all: its type is a bare value), returns 0 after consuming the
byte for an overlong signed group, and panics (Vec::drain past the end)
for a signed read of an empty buffer. -/
theorem c2_leb128_defaults_not_error :
    read_uleb128 32 [] = (0, []) ∧
    read_uleb128 7 [0x85] = (0, [0x85]) ∧
    read_sleb128 32 [] = none ∧
    read_sleb128 7 [0xFF] = some (0, []) := by
  refine ⟨by decide, by decide, by decide, by decide⟩

/-- Claim C3. The claim states decode(encode(x)) = x for every
representable x at widths 7, 32, 33, 64 in both signedness modes. The
signed round trip already fails at width 32 for x = -64: the encoder
correctly produces the single byte 0x40, but the sign-extension guard of
read_sleb128 computes 2 XOR (n-1) where exponentiation was intended (Rust
^ is XOR), so the byte falls through to the default arm and decodes to 0. -/
theorem c3_sleb_roundtrip_counterexample :
    write_sleb128 (-64) = [0x40] ∧
    read_sleb128 32 (write_sleb128 (-64)) = some (0, []) ∧
    (0 : Int) ≠ -64 := by
  refine ⟨by decide, by decide, by decide⟩

/-- Claim C4. The claim states that a section whose declared length
disagrees with the bytes its payload decoder consumes fails with a
section-size-mismatch error, and in particular that a declared length one
byte larger than the structured payload does not decode successfully. The
code never compares the declared size with anything for structured kinds:
a type section with declared length 2 whose payload is the single byte
0x00 (an empty function-type vector) decodes successfully, leaving the
residual byte 0xAA in the buffer. -/
theorem c4_oversized_section_accepted :
    Section.parse 1 [0x01, 0x02, 0x00, 0xAA] = .ok (.TypeS []) [0xAA] := rfl

/-- Claim C5. The claim states that Module::parse rejects any input whose
first four bytes differ from the magic constant or whose version is not 1.
The code reads the eight preamble bytes into the magic and version fields
and never compares them with the (unused) MAGIC and VERSION constants: an
all-zero preamble and a version-2 preamble are both accepted. -/
theorem c5_preamble_not_checked :
    WModule.parse 1 [0, 0, 0, 0, 0, 0, 0, 0] = .ok ⟨0, 0, []⟩ [] ∧
    WModule.parse 1 [0x00, 0x61, 0x73, 0x6D, 0x02, 0x00, 0x00, 0x00]
      = .ok ⟨0x6D736100, 2, []⟩ [] :=
  ⟨rfl, rfl⟩

/-- Claim C6. The claim states that the value-type alternative of
BlockType::parse is a non-consuming probe: when it fails, the signed
33-bit read starts at the same position. In the code the probe goes
through the blanket byte impl of Parse, which drains the byte before
testing it, so on input 0x05 0x01 0x02 0x03 the failed probe consumes
0x05 and the signed 33-bit read starts at 0x01, producing X 1 with
0x02 0x03 left; a same-position read (second conjunct) would produce 5
and leave three bytes. -/
theorem c6_blocktype_probe_consumes :
    BlockType.parse [0x05, 0x01, 0x02, 0x03] = .ok (.X 1) [0x02, 0x03] ∧
    read_sleb128 33 [0x05, 0x01, 0x02, 0x03] = some (5, [0x01, 0x02, 0x03]) :=
  ⟨rfl, by decide⟩

/-- Claim C7. A byte sequence 0x04 0x40 then-ops 0x05 else-ops 0x0B,
where then-ops and else-ops are sequences of complete instruction
encodings none of which starts with a top-level 0x05 or 0x0B byte,
decodes to an IfElse node whose branches are exactly the
instruction-by-instruction decodes of the two sequences, consuming the
whole encoding including the final 0x0B (any trailing suffix rest is left
untouched). Fuel is the embedding artifact bounding recursion depth;
length of the input plus three always suffices. -/
theorem c7_if_else_exact_decode (tl el : List (List Nat × Instr))
    (ht : EncSeq tl) (he : EncSeq el) (fuel : Nat) (rest : List Nat)
    (hf : (encBytes tl).length + tl.length + (encBytes el).length + el.length + 3 ≤ fuel) :
    Instr.parse fuel (0x04 :: 0x40 :: (encBytes tl ++ 0x05 :: encBytes el ++ 0x0B :: rest))
      = .ok (.IfElse .Empty (tl.map Prod.snd) (el.map Prod.snd)) rest := by
  obtain ⟨f, rfl⟩ : ∃ f, fuel = f + 1 := ⟨fuel - 1, by omega⟩
  rw [instrParse_if_step, blockType_empty_step]
  simp only [PResult.bind]
  rw [parseIfSeq_encSeq tl el ht he f rest (by omega)]

/-- Witness for claim C7: the concrete sequence 0x04 0x40 (nop) 0x05
(i32.const 5) 0x0B decodes to IfElse Empty [Nop] [I32Const 5] consuming
everything, via the claim theorem applied at then-ops = [nop],
else-ops = [i32.const 5]. -/
theorem c7_if_else_exact_decode_witness :
    EncSeq [([0x01], Instr.Nop)] ∧ EncSeq [([0x41, 0x05], Instr.I32Const 5)] ∧
    Instr.parse 20 [0x04, 0x40, 0x01, 0x05, 0x41, 0x05, 0x0B]
      = .ok (.IfElse .Empty [.Nop] [.I32Const 5]) [] := by
  have hA : EncSeq [([0x01], Instr.Nop)] := by
    intro p hp
    simp only [List.mem_singleton] at hp
    subst hp
    refine ⟨by simp, by simp, by simp, ?_⟩
    intro s fuel hf
    obtain ⟨f, rfl⟩ : ∃ f, fuel = f + 1 := ⟨fuel - 1, by simp at hf; omega⟩
    rfl
  have hB : EncSeq [([0x41, 0x05], Instr.I32Const 5)] := by
    intro p hp
    simp only [List.mem_singleton] at hp
    subst hp
    refine ⟨by simp, by simp, by simp, ?_⟩
    intro s fuel hf
    obtain ⟨f, rfl⟩ : ∃ f, fuel = f + 1 := ⟨fuel - 1, by simp at hf; omega⟩
    rfl
  refine ⟨hA, hB, ?_⟩
  have hres := c7_if_else_exact_decode [([0x01], Instr.Nop)] [([0x41, 0x05], Instr.I32Const 5)]
    hA hB 20 [] (by norm_num [encBytes])
  simpa [encBytes] using hres

/-- Claim C8. The claim states that in the 0xFD tier distinct sub-opcodes
that decode successfully yield distinct variants. The code collapses whole
ranges onto placeholder variants: sub-opcodes 14 and 15 (among 14 to 20)
both decode to I8x16_Swizzle. -/
theorem c8_fd_subopcodes_collapse :
    Instr.parse 1 [0xFD, 14] = .ok .I8x16_Swizzle [] ∧
    Instr.parse 1 [0xFD, 15] = .ok .I8x16_Swizzle [] ∧
    (14 : Nat) ≠ 15 :=
  ⟨rfl, rfl, by decide⟩

/-- Claim C9. The claim states that truncating a valid module buffer at
any byte position never panics and yields an end-of-input error (or a
success). The preamble-only module consisting of the correct magic and
version bytes decodes successfully, but its prefix of length 3 makes
Module::parse panic: the eight-byte preamble drain has no length guard. -/
theorem c9_truncated_module_panics :
    WModule.parse 1 [0x00, 0x61, 0x73, 0x6D, 0x01, 0x00, 0x00, 0x00]
      = .ok ⟨0x6D736100, 1, []⟩ [] ∧
    WModule.parse 1 [0x00, 0x61, 0x73] = .panicked :=
  ⟨rfl, rfl⟩

/-- Claim C10. Instr::parse never returns any of the eight lane
memory-access variants: the 0xFD arm for sub-opcodes 84 to 91 sits after
the arm covering 35 to 255, which matches those values first, and no
other arm builds a lane variant. -/
theorem c10_no_lane_variant : ∀ (fuel : Nat) (buf : List Nat) (i : Instr) (r : List Nat),
    Instr.parse fuel buf = .ok i r → i.isLaneMem = false := by
  intro fuel
  induction fuel with
  | zero => intro buf i r h; simp [Instr.parse] at h
  | succ f ih =>
    intro buf i r h
    cases buf with
    | nil => simp [Instr.parse] at h
    | cons b rest =>
      unfold Instr.parse PResult.bind at h
      repeat' first
        | split at h
        | (simp only [] at h)
      all_goals first
        | omega
        | exact parseFC_notLane _ _ _ _ h
        | exact parseFD_notLane _ _ _ _ h
        | exact ih _ _ _ h
        | (cases h; rfl)
        | cases h

/-- Witness for claim C10: applied to the concrete successful decode of
the unreachable opcode. -/
theorem c10_no_lane_variant_witness : Instr.isLaneMem .UnReachable = false :=
  c10_no_lane_variant 1 [0x00] .UnReachable [] rfl
